import Mathlib

/-!
Verification of the agentic orchestration core of the ai-avatar-assistant
repository: a shallow embedding in Lean 4 of

* `src/config/api_keys.py` — `APIKeyManager` (credential rotation),
* `src/core/orchestrator.py` — `OrchestratorAgent._resolve_params`,
  `_execute_plan`, `_handle_rate_limit` and `orchestrate`.

Python dicts are modelled as insertion-ordered association lists, Python
values appearing in tool parameters / results as the inductive `Value`,
wall-clock time as an explicit `Nat` argument (`time.time()` is the only
impure input the credential manager reads), and a raised Python exception
as the `Except.error` branch of `Except String α`.  Console printing and
text-to-speech calls are side effects with no influence on any returned
data and are not modelled.
-/

/-- A Python value as it occurs in tool parameters, step memory and tool
results: strings, integers, booleans and (insertion-ordered) dicts. -/
inductive Value where
  | str (s : String)
  | int (n : Int)
  | bool (b : Bool)
  | dict (fields : List (String × Value))

/-- Python `d[k]` / `k in d` on an insertion-ordered dict: the value of
the first (unique) binding of `k`, if any. -/
def dictGet (m : List (String × Value)) (k : String) : Option Value :=
  (m.find? (fun p => p.1 == k)).map (fun p => p.2)

/-- Python `d[k] = v`: overwrite the existing binding in place, else
append a new one (CPython dicts preserve insertion order). -/
def dictSet (m : List (String × Value)) (k : String) (v : Value) :
    List (String × Value) :=
  if m.any (fun p => p.1 == k) then
    m.map (fun p => if p.1 == k then (k, v) else p)
  else m ++ [(k, v)]

/-- Python truthiness of a `Value` (`bool(v)`): `False`, `0`, `""` and
`{}` are falsy. -/
def Value.truthy : Value → Bool
  | .str s => !s.isEmpty
  | .int n => n != 0
  | .bool b => b
  | .dict d => !d.isEmpty

/-- Python `needle in hay` on lists of characters. -/
def charsContain (needle : List Char) : List Char → Bool
  | [] => needle.isEmpty
  | c :: rest => needle.isPrefixOf (c :: rest) || charsContain needle rest

/-- Python `needle in hay` on strings (substring test). -/
def strContains (hay needle : String) : Bool :=
  charsContain needle.toList hay.toList

/-- Python `s.lower()` (ASCII; the matched keywords are all ASCII). -/
def lowerStr (s : String) : String :=
  String.mk (s.toList.map Char.toLower)

/-- Python `s.startswith(pre)`. -/
def strStartsWith (s pre : String) : Bool :=
  pre.toList.isPrefixOf s.toList

/-! ## `OrchestratorAgent._resolve_params` (src/core/orchestrator.py) -/

/-- One parameter value through `_resolve_params`' loop body:

```python
if isinstance(value, str) and value.startswith('$'):
    var_name = value[1:]
    if var_name in memory: resolved[key] = memory[var_name]
    else: resolved[key] = value
else:
    resolved[key] = value
```
-/
def resolve_value (memory : List (String × Value)) (v : Value) : Value :=
  match v with
  | .str s =>
      if strStartsWith s "$" then
        match dictGet memory (s.drop 1) with
        | some w => w
        | none => .str s
      else .str s
  | other => other

/-- `OrchestratorAgent._resolve_params`: resolve every parameter value
through step memory, keeping the key order of the params dict. -/
def resolve_params (params : List (String × Value))
    (memory : List (String × Value)) : List (String × Value) :=
  params.map (fun p => (p.1, resolve_value memory p.2))

/-! ## `APIKeyManager` (src/config/api_keys.py)

`request_counts` is a dict indexed by `0 .. len(keys)-1`; it is modelled
as a total function `Nat → Nat` (entries outside the pool are never read
by the source).  `requests_per_minute_limit` is an instance attribute
(`55` after `__init__`).  `time.time()` is passed in as `now`. -/

structure APIKeyManager where
  keys : List String
  current_index : Nat
  request_counts : Nat → Nat
  last_reset : Nat
  requests_per_minute_limit : Nat

/-- `APIKeyManager.__init__` with the configured key pool, at wall-clock
time `t0`. -/
def APIKeyManager.init (keys : List String) (t0 : Nat) : APIKeyManager :=
  { keys := keys
    current_index := 0
    request_counts := fun _ => 0
    last_reset := t0
    requests_per_minute_limit := 55 }

/-- The lazy window reset at the top of `get_key`:

```python
if current_time - self.last_reset >= 60:
    self.request_counts = {i: 0 for i in range(len(self.keys))}
    self.last_reset = current_time
```
-/
def apply_window_reset (s : APIKeyManager) (now : Nat) : APIKeyManager :=
  if 60 ≤ now - s.last_reset then
    { s with request_counts := fun _ => 0, last_reset := now }
  else s

/-- The `while attempts < len(self.keys)` scan of `get_key`, with
`fuel` the number of attempts still allowed.  Returns the request
counts after the scan, the final `current_index`, and `some i` when the
scan selected (and charged) slot `i`, `none` when it fell through:

```python
while attempts < len(self.keys):
    if self.request_counts[self.current_index] < self.requests_per_minute_limit:
        key = self.keys[self.current_index]
        self.request_counts[self.current_index] += 1
        return key
    self.current_index = (self.current_index + 1) % len(self.keys)
    attempts += 1
```
-/
def get_key_loop (n limit : Nat) :
    Nat → Nat → (Nat → Nat) → ((Nat → Nat) × Nat × Option Nat)
  | 0, idx, counts => (counts, idx, none)
  | fuel + 1, idx, counts =>
      if counts idx < limit then
        ((fun j => if j = idx then counts idx + 1 else counts j), idx, some idx)
      else
        get_key_loop n limit fuel ((idx + 1) % n) counts

/-- `APIKeyManager.get_key`, returning the index of the slot whose key
is handed out (`none` only for an empty pool) together with the updated
manager.  On a saturated pool the scan falls through and the slot at the
final pointer is returned uncharged (`return self.keys[self.current_index]`). -/
def get_key_pick (s : APIKeyManager) (now : Nat) :
    Option Nat × APIKeyManager :=
  if s.keys.isEmpty then (none, s)
  else
    let s1 := apply_window_reset s now
    match get_key_loop s1.keys.length s1.requests_per_minute_limit
        s1.keys.length s1.current_index s1.request_counts with
    | (cs, ix, some i) =>
        (some i, { s1 with request_counts := cs, current_index := ix })
    | (cs, ix, none) =>
        (some ix, { s1 with request_counts := cs, current_index := ix })

/-- `APIKeyManager.get_key`: the credential string handed out (the key
at the picked slot) and the updated manager. -/
def get_key (s : APIKeyManager) (now : Nat) :
    Option String × APIKeyManager :=
  let r := get_key_pick s now
  (r.1.map (fun i => r.2.keys.getD i ""), r.2)

/-- `APIKeyManager.mark_rate_limited`.  The counter write happens before
the pointer advance; on an empty pool the advance computes `% 0` and
raises, which is modelled by the `some "ZeroDivisionError"` component:

```python
if key_index is None: key_index = self.current_index
self.request_counts[key_index] = self.requests_per_minute_limit
self.current_index = (self.current_index + 1) % len(self.keys)
```
-/
def mark_rate_limited (s : APIKeyManager) (key_index : Option Nat) :
    APIKeyManager × Option String :=
  let ki := match key_index with
    | some i => i
    | none => s.current_index
  let s1 := { s with request_counts :=
      fun j => if j = ki then s.requests_per_minute_limit else s.request_counts j }
  if s.keys.length = 0 then
    (s1, some "ZeroDivisionError")
  else
    ({ s1 with current_index := (s.current_index + 1) % s.keys.length }, none)

/-- One external call to the credential manager: `get_key()` at a given
wall-clock time, or `mark_rate_limited(key_index)`. -/
inductive MgrOp where
  | getKey (now : Nat)
  | markRateLimited (key_index : Option Nat)

/-- The manager state after one call (exceptions leave the already
performed mutations in place, as in Python). -/
def applyOp (s : APIKeyManager) : MgrOp → APIKeyManager
  | .getKey now => (get_key s now).2
  | .markRateLimited ki => (mark_rate_limited s ki).1

/-- The manager state after a finite sequence of calls. -/
def runOps (s : APIKeyManager) (ops : List MgrOp) : APIKeyManager :=
  ops.foldl applyOp s

/-- Invariant: every per-slot request counter is at most the
per-credential budget. -/
def counters_bounded (s : APIKeyManager) : Prop :=
  ∀ i, s.request_counts i ≤ s.requests_per_minute_limit

/-! ## Plans and `OrchestratorAgent._execute_plan` (src/core/orchestrator.py)

A registered tool is modelled as a function from its (resolved) keyword
params to `Except String Value`: `Except.error e` is the tool raising an
exception with message `e`.  The registry maps tool names to such
functions, like `self.tools_registry` maps names to entries whose
`'function'` field is called with `**params`. -/

/-- One entry of a plan's `tool_calls` list. -/
structure ToolCall where
  tool : String
  params : List (String × Value)

/-- The parsed JSON plan produced by the planning call. -/
structure Plan where
  thinking : String
  tool_calls : List ToolCall
  response : String
  needs_automation : Bool

/-- A tool callable: resolved keyword params in, structured result out,
or a raised exception (`Except.error`). -/
def ToolFn := List (String × Value) → Except String Value

/-- `self.tools_registry` as a name-keyed association list. -/
def Registry := List (String × ToolFn)

/-- Python `tool_name in self.tools_registry` / registry lookup. -/
def lookupTool (r : Registry) (name : String) : Option ToolFn :=
  (r.find? (fun p => p.1 == name)).map (fun p => p.2)

mutual
/-- Python `repr` of a `Value` (used inside dict renderings). -/
def pyRepr : Value → String
  | .str s => "'" ++ s ++ "'"
  | .int n => toString n
  | .bool b => if b then "True" else "False"
  | .dict d => "\x7b" ++ pyReprFields d ++ "\x7d"

/-- Python `repr` of the comma-separated bindings of a dict. -/
def pyReprFields : List (String × Value) → String
  | [] => ""
  | [(k, v)] => "'" ++ k ++ "': " ++ pyRepr v
  | (k, v) :: rest => "'" ++ k ++ "': " ++ pyRepr v ++ ", " ++ pyReprFields rest
end

/-- Python `str` of a `Value` (bare text for strings, `repr` rendering
otherwise), as applied to tool results when logging. -/
def pyStr : Value → String
  | .str s => s
  | v => pyRepr v

/-- The log truncation `str(result)[:100] + '...' if len(str(result)) > 100
else str(result)`. -/
def truncate (s : String) : String :=
  if s.length > 100 then s.take 100 ++ "..." else s

/-- One entry of `results['execution_log']`.  `detail` is the entry's
`'result'` text for status `"success"` and its `'error'` text for
status `"error"`. -/
structure LogEntry where
  step : Nat
  tool : String
  status : String
  detail : String

/-- One entry of `results['tool_calls']` (the successful-call trace). -/
structure ToolTrace where
  tool : String
  params : List (String × Value)
  result : Value

/-- The `results` dict built by `_execute_plan` (the GUI-only
`progress_steps` entries and spoken announcements are side effects and
are not modelled). -/
structure ExecResults where
  success : Bool
  original_input : String
  thinking : String
  tool_calls : List ToolTrace
  response : String
  execution_log : List LogEntry

/-- The step-memory update on a successful tool result:

```python
if isinstance(result, dict):
    if 'content' in result:
        step_memory['CONTENT_FROM_PREVIOUS_STEP'] = result['content']
        step_memory['LAST_CONTENT'] = result['content']
    if 'result' in result: step_memory['LAST_RESULT'] = result['result']
    if 'message' in result: step_memory['LAST_MESSAGE'] = result['message']
```
-/
def update_step_memory (mem : List (String × Value)) (result : Value) :
    List (String × Value) :=
  match result with
  | .dict d =>
      let m1 := match dictGet d "content" with
        | some c => dictSet (dictSet mem "CONTENT_FROM_PREVIOUS_STEP" c) "LAST_CONTENT" c
        | none => mem
      let m2 := match dictGet d "result" with
        | some r => dictSet m1 "LAST_RESULT" r
        | none => m1
      match dictGet d "message" with
        | some m => dictSet m2 "LAST_MESSAGE" m
        | none => m2
  | _ => mem

/-- The `for i, tool_call in enumerate(plan['tool_calls'])` loop of
`_execute_plan`: `i` is the 0-based index of the head of `calls`.  An
unknown tool or a raised tool exception appends an error entry, sets
`success = False` and continues with the next step. -/
def exec_steps (r : Registry) :
    List ToolCall → Nat → List (String × Value) → ExecResults → ExecResults
  | [], _, _, res => res
  | c :: calls, i, mem, res =>
      let params := resolve_params c.params mem
      match lookupTool r c.tool with
      | none =>
          exec_steps r calls (i + 1) mem
            { res with
              success := false
              execution_log := res.execution_log ++
                [⟨i + 1, c.tool, "error", "Unknown tool: " ++ c.tool⟩] }
      | some f =>
          match f params with
          | .error e =>
              exec_steps r calls (i + 1) mem
                { res with
                  success := false
                  execution_log := res.execution_log ++
                    [⟨i + 1, c.tool, "error",
                      "Error executing " ++ c.tool ++ ": " ++ e⟩] }
          | .ok result =>
              exec_steps r calls (i + 1) (update_step_memory mem result)
                { res with
                  tool_calls := res.tool_calls ++ [⟨c.tool, params, result⟩]
                  execution_log := res.execution_log ++
                    [⟨i + 1, c.tool, "success", truncate (pyStr result)⟩] }

/-- `OrchestratorAgent._execute_plan`: a plan with no tool calls
short-circuits to a conversational result; otherwise the steps run
strictly in order over a fresh empty step memory. -/
def execute_plan (r : Registry) (plan : Plan) (original_input : String) :
    ExecResults :=
  let res0 : ExecResults :=
    { success := true
      original_input := original_input
      thinking := plan.thinking
      tool_calls := []
      response := plan.response
      execution_log := [] }
  if plan.tool_calls.isEmpty then res0
  else exec_steps r plan.tool_calls 0 [] res0

/-! ## `OrchestratorAgent._handle_rate_limit` (src/core/orchestrator.py)

The dispatcher's matchers run in fixed order; each one calls its tool
directly with **no** surrounding `try`/`except`, so a raised tool
exception (`Except.error`) leaves the dispatcher.  The first two
matchers (application launch and volume) are modelled in full; the
matchers after the volume matcher (time, weather, calculator, file
search, typing, document analysis — none of which wraps its tool call
in a handler either) are abstracted as the continuation `tail`, which
every theorem below quantifies over: the inputs the claims exercise
return before reaching it. -/

/-- The tools the modelled matchers invoke directly. -/
structure FallbackEnv where
  open_app : String → Except String Value
  set_volume : Nat → Except String Value

/-- `re.search(r'(\d+)', s)` followed by `int(...)`: the leftmost
maximal run of decimal digits, if any. -/
def takeDigits : List Char → List Char
  | [] => []
  | c :: rest => if c.isDigit then c :: takeDigits rest else []

/-- Value of a digit run, most significant first. -/
def digitsToNat (l : List Char) : Nat :=
  l.foldl (fun acc c => acc * 10 + (c.toNat - 48)) 0

/-- Leftmost integer literal in a character list, if any. -/
def firstNumberAux : List Char → Option Nat
  | [] => none
  | c :: rest =>
      if c.isDigit then some (digitsToNat (c :: takeDigits rest))
      else firstNumberAux rest

/-- Leftmost integer literal in a string, if any. -/
def firstNumber (s : String) : Option Nat :=
  firstNumberAux s.toList

/-- The volume matcher of `_handle_rate_limit`:

```python
if "volume" in user_lower:
    volume_match = re.search(r'(\d+)', user_input)
    if volume_match:
        level = int(volume_match.group(1))
        result = set_volume(level)          # no try/except around this
        return {'success': result.get('success', False),
                'message': result.get('message', f'Set volume to {level}'),
                'response': f'Volume set to {level}%', 'fallback': True}
```
falling through to the later matchers (`tail`) when it does not match.
`result.get` on a non-dict result would raise `AttributeError`. -/
def fallback_volume (fb : FallbackEnv) (tail : String → Except String Value)
    (user_input user_lower : String) : Except String Value :=
  if strContains user_lower "volume" then
    match firstNumber user_input with
    | some level =>
        match fb.set_volume level with
        | .error e => .error e
        | .ok result =>
            match result with
            | .dict d =>
                .ok (.dict
                  [("success", (dictGet d "success").getD (.bool false)),
                   ("message", (dictGet d "message").getD
                      (.str ("Set volume to " ++ toString level))),
                   ("response", .str ("Volume set to " ++ toString level ++ "%")),
                   ("fallback", .bool true)])
            | _ => .error "AttributeError"
    | none => tail user_input
  else tail user_input

/-- `OrchestratorAgent._handle_rate_limit`: the application-launch
matcher, then the volume matcher, then the remaining matchers (`tail`).

```python
if "open" in user_lower and any(app in user_lower for app in
        ["chrome", "notepad", "calculator", "spotify"]):
    for app in ["chrome", "notepad", "calculator", "spotify", "word", "excel"]:
        if app in user_lower: app_name = app; break
    if app_name:
        result = open_app(app_name)         # no try/except around this
        return {'success': result.get('success', False),
                'message': result.get('message', f'Attempted to open {app_name}'),
                'response': f'Opened {app_name}' if result.get('success')
                            else f'Failed to open {app_name}',
                'fallback': True}
```
-/
def handle_rate_limit (fb : FallbackEnv) (tail : String → Except String Value)
    (user_input : String) : Except String Value :=
  let user_lower := lowerStr user_input
  if strContains user_lower "open" &&
      ["chrome", "notepad", "calculator", "spotify"].any
        (fun app => strContains user_lower app) then
    match ["chrome", "notepad", "calculator", "spotify", "word", "excel"].find?
        (fun app => strContains user_lower app) with
    | some app_name =>
        match fb.open_app app_name with
        | .error e => .error e
        | .ok result =>
            match result with
            | .dict d =>
                .ok (.dict
                  [("success", (dictGet d "success").getD (.bool false)),
                   ("message", (dictGet d "message").getD
                      (.str ("Attempted to open " ++ app_name))),
                   ("response", .str
                      (if ((dictGet d "success").getD (.bool false)).truthy then
                        "Opened " ++ app_name
                      else "Failed to open " ++ app_name)),
                   ("fallback", .bool true)])
            | _ => .error "AttributeError"
    | none => fallback_volume fb tail user_input user_lower
  else fallback_volume fb tail user_input user_lower

/-! ## `OrchestratorAgent.orchestrate` (src/core/orchestrator.py)

The one planning call per invocation (`self.client.chat.completions.create`)
is the abstract `CompletionOutcome`: either the raw response text or a
raised exception with message `msg`.  JSON decoding plus plan-field
extraction is the abstract `parse` (`Except.error e` is a
`json.JSONDecodeError` with text `e`); `_handle_automation_request` is
the abstract total `automation`.  The result dict of each terminal
branch is tagged by `OResult`. -/

/-- Outcome of the blocking planning-service call. -/
inductive CompletionOutcome where
  | ok (content : String)
  | exn (msg : String)

/-- The dicts returned by `orchestrate`'s branches. -/
inductive OResult where
  | offline (message : String)
  | parse_failure (message : String)
  | automation_result (v : Value)
  | plan_result (r : ExecResults)
  | fallback_result (v : Value)
  | error_result (message : String)

/-- `OrchestratorAgent.orchestrate`.  `json.JSONDecodeError` is caught
first and returns the parse-failure dict; any other exception is
checked for `"429" in str(e) or "rate limit" in str(e).lower()` and
routed to `_handle_rate_limit` exactly when that matches — whose own
raised exceptions (`Except.error`) propagate to the caller, since the
call sits inside the `except` handler. -/
def orchestrate (has_client : Bool) (r : Registry)
    (parse : String → Except String Plan)
    (automation : String → Plan → Value)
    (fb : FallbackEnv) (tail : String → Except String Value)
    (completion : CompletionOutcome) (user_input : String) :
    Except String OResult :=
  if !has_client then
    .ok (.offline "Orchestrator offline (no Groq API key)")
  else
    match completion with
    | .ok content =>
        match parse content with
        | .error e =>
            .ok (.parse_failure ("Failed to parse orchestrator response: " ++ e))
        | .ok plan =>
            if plan.needs_automation && plan.tool_calls.isEmpty then
              .ok (.automation_result (automation user_input plan))
            else
              .ok (.plan_result (execute_plan r plan user_input))
    | .exn msg =>
        if strContains msg "429" || strContains (lowerStr msg) "rate limit" then
          match handle_rate_limit fb tail user_input with
          | .ok v => .ok (.fallback_result v)
          | .error e => .error e
        else
          .ok (.error_result ("Orchestrator error: " ++ msg))

/-! ## Concrete instances used by the theorems below -/

/-- Default log entry for positional access in statements. -/
def emptyLog : LogEntry := ⟨0, "", "", ""⟩

/-- A 2-credential pool with a per-credential budget of 2 requests per
window (`manager.requests_per_minute_limit = 2` set after `__init__`). -/
def c7_state0 : APIKeyManager :=
  { keys := ["k0", "k1"], current_index := 0, request_counts := fun _ => 0,
    last_reset := 0, requests_per_minute_limit := 2 }

/-- State after the 1st `get_key()` call (all calls in the same window). -/
def c7_s1 : APIKeyManager := (get_key c7_state0 0).2

/-- State after the 2nd `get_key()` call. -/
def c7_s2 : APIKeyManager := (get_key c7_s1 0).2

/-- State after the 3rd `get_key()` call. -/
def c7_s3 : APIKeyManager := (get_key c7_s2 0).2

/-- State after the 4th `get_key()` call. -/
def c7_s4 : APIKeyManager := (get_key c7_s3 0).2

/-- A single-credential manager saturated by `mark_rate_limited()`. -/
def c2_sat_state : APIKeyManager :=
  (mark_rate_limited (APIKeyManager.init ["k0"] 0) none).1

/-- Fallback tools whose volume tool raises (`Except.error "boom"`). -/
def c3_fb : FallbackEnv :=
  { open_app := fun _ => .ok (.dict [("success", .bool true)]),
    set_volume := fun _ => .error "boom" }

/-- The matchers after the volume matcher, ending in the terminal
rate-limit message (never reached by the inputs below). -/
def c3_tail : String → Except String Value := fun _ =>
  .ok (.dict
    [("success", .bool false),
     ("message", .str "Rate limit reached. Please wait a moment and try again."),
     ("rate_limited", .bool true)])

/-- A calculator-style tool that returns a structured result. -/
def calc_tool : ToolFn := fun _ =>
  .ok (.dict [("success", .bool true), ("result", .int 10)])

/-- A registry holding only `calculate`. -/
def demo_registry : Registry := [("calculate", calc_tool)]

/-- Step 1 of the demo plan: a tool absent from the registry. -/
def c4_call1 : ToolCall := ⟨"unknown_tool", []⟩

/-- Step 2 of the demo plan: a registered tool. -/
def c4_call2 : ToolCall := ⟨"calculate", [("expression", .str "5+5")]⟩

/-- The two-step demo plan: step 1 unknown, step 2 valid. -/
def c4_plan : Plan := ⟨"demo", [c4_call1, c4_call2], "", false⟩

/-- Benign fallback tools for the dispatcher-routing theorems. -/
def c6_fb : FallbackEnv :=
  { open_app := fun _ => .ok (.dict [("success", .bool true)]),
    set_volume := fun _ => .ok (.dict [("success", .bool true)]) }

/-- A decode stage that always fails as `json.JSONDecodeError` does on
non-JSON text. -/
def c6_bad_parse : String → Except String Plan := fun _ =>
  .error "Expecting value: line 1 column 1 (char 0)"

/-- A trivial automation handler result. -/
def c6_automation : String → Plan → Value := fun _ _ => .dict []

/-! ## Helper lemmas -/

theorem apply_window_reset_keys (s : APIKeyManager) (now : Nat) :
    (apply_window_reset s now).keys = s.keys := by
  unfold apply_window_reset; split <;> rfl

theorem apply_window_reset_index (s : APIKeyManager) (now : Nat) :
    (apply_window_reset s now).current_index = s.current_index := by
  unfold apply_window_reset; split <;> rfl

theorem apply_window_reset_limit (s : APIKeyManager) (now : Nat) :
    (apply_window_reset s now).requests_per_minute_limit
      = s.requests_per_minute_limit := by
  unfold apply_window_reset; split <;> rfl

theorem apply_window_reset_of_fresh (s : APIKeyManager) (now : Nat)
    (h : now - s.last_reset < 60) : apply_window_reset s now = s := by
  unfold apply_window_reset
  rw [if_neg (by omega)]

/-- Every slot's counter leaves the `get_key` scan either unchanged or
incremented by one from strictly below the budget. -/
theorem get_key_loop_counts (n limit : Nat) :
    ∀ fuel idx counts j, (get_key_loop n limit fuel idx counts).1 j = counts j ∨
      ((get_key_loop n limit fuel idx counts).1 j = counts j + 1 ∧
        counts j < limit) := by
  intro fuel
  induction fuel with
  | zero => intro idx counts j; exact Or.inl rfl
  | succ fuel ih =>
      intro idx counts j
      unfold get_key_loop
      split
      · by_cases hj : j = idx
        · subst hj
          exact Or.inr ⟨by simp, by assumption⟩
        · exact Or.inl (by simp [hj])
      · exact ih ((idx + 1) % n) counts j

/-- When the scan selects a slot, that slot was strictly below the
budget, its counter is charged by one, the pointer stops on it, and it
is a valid slot. -/
theorem get_key_loop_some_spec (n limit : Nat) :
    ∀ fuel idx counts cs ix i, idx < n →
      get_key_loop n limit fuel idx counts = (cs, ix, some i) →
      counts i < limit ∧ ix = i ∧ i < n ∧
        cs = fun j => if j = i then counts i + 1 else counts j := by
  intro fuel
  induction fuel with
  | zero => intro idx counts cs ix i _ h; simp [get_key_loop] at h
  | succ fuel ih =>
      intro idx counts cs ix i hidx h
      unfold get_key_loop at h
      split at h
      · rw [Prod.mk.injEq, Prod.mk.injEq] at h
        obtain ⟨hcs, hix, hoi⟩ := h
        injection hoi with hii
        subst hii
        exact ⟨by assumption, hix.symm, hidx, hcs.symm⟩
      · exact ih ((idx + 1) % n) counts cs ix i
          (Nat.mod_lt _ (lt_of_le_of_lt (Nat.zero_le _) hidx)) h

/-- When the scan falls through, the counters are untouched, the pointer
has advanced `fuel` times, and every slot it visited was saturated. -/
theorem get_key_loop_none_spec (n limit : Nat) :
    ∀ fuel idx counts cs ix, idx < n →
      get_key_loop n limit fuel idx counts = (cs, ix, none) →
      cs = counts ∧ ix = (idx + fuel) % n ∧
        ∀ k, k < fuel → limit ≤ counts ((idx + k) % n) := by
  intro fuel
  induction fuel with
  | zero =>
      intro idx counts cs ix hidx h
      unfold get_key_loop at h
      rw [Prod.mk.injEq, Prod.mk.injEq] at h
      obtain ⟨hcs, hix, -⟩ := h
      refine ⟨hcs.symm, ?_, fun k hk => absurd hk (by omega)⟩
      rw [← hix, Nat.add_zero, Nat.mod_eq_of_lt hidx]
  | succ fuel ih =>
      intro idx counts cs ix hidx h
      unfold get_key_loop at h
      split at h
      · rw [Prod.mk.injEq, Prod.mk.injEq] at h
        obtain ⟨-, -, hoi⟩ := h
        cases hoi
      · rename_i hsat
        have hn : 0 < n := lt_of_le_of_lt (Nat.zero_le _) hidx
        obtain ⟨hcs, hix, hvis⟩ :=
          ih ((idx + 1) % n) counts cs ix (Nat.mod_lt _ hn) h
        refine ⟨hcs, ?_, ?_⟩
        · rw [hix, Nat.mod_add_mod]
          congr 1
          omega
        · intro k hk
          match k with
          | 0 =>
              rw [Nat.add_zero, Nat.mod_eq_of_lt hidx]
              omega
          | k + 1 =>
              have := hvis k (by omega)
              rw [Nat.mod_add_mod] at this
              have harg : idx + 1 + k = idx + (k + 1) := by omega
              rw [harg] at this
              exact this

/-- Starting anywhere inside the pool, `n` pointer advances visit every
slot of the pool. -/
theorem visits_all (n idx j : Nat) (hidx : idx < n) (hj : j < n) :
    ∃ k, k < n ∧ (idx + k) % n = j := by
  refine ⟨(j + n - idx) % n, Nat.mod_lt _ (by omega), ?_⟩
  rw [Nat.add_mod_mod]
  have harg : idx + (j + n - idx) = j + n := by omega
  rw [harg, Nat.add_mod_right, Nat.mod_eq_of_lt hj]

theorem mark_rate_limited_keys (s : APIKeyManager) (ki : Option Nat) :
    (mark_rate_limited s ki).1.keys = s.keys := by
  unfold mark_rate_limited
  by_cases h : s.keys.length = 0 <;> simp [h]

theorem mark_rate_limited_limit (s : APIKeyManager) (ki : Option Nat) :
    (mark_rate_limited s ki).1.requests_per_minute_limit
      = s.requests_per_minute_limit := by
  unfold mark_rate_limited
  by_cases h : s.keys.length = 0 <;> simp [h]

theorem mark_rate_limited_last_reset (s : APIKeyManager) (ki : Option Nat) :
    (mark_rate_limited s ki).1.last_reset = s.last_reset := by
  unfold mark_rate_limited
  by_cases h : s.keys.length = 0 <;> simp [h]

theorem mark_rate_limited_counts (s : APIKeyManager) (i : Nat) :
    (mark_rate_limited s (some i)).1.request_counts
      = fun j => if j = i then s.requests_per_minute_limit
                 else s.request_counts j := by
  unfold mark_rate_limited
  by_cases h : s.keys.length = 0 <;> simp [h]

theorem mark_rate_limited_index (s : APIKeyManager) (ki : Option Nat)
    (h : s.keys.length ≠ 0) :
    (mark_rate_limited s ki).1.current_index
      = (s.current_index + 1) % s.keys.length := by
  unfold mark_rate_limited
  simp [h]

theorem isEmpty_false_of_ne_nil {l : List String} (h : l ≠ []) :
    l.isEmpty = false := by
  cases hk : l with
  | nil => exact absurd hk h
  | cons a t => rfl

/-- C2 (amended): either the scan finds a slot strictly below the
budget — then precisely that slot's counter is incremented — or the
whole pool (after the lazy window reset) is saturated and `get_key`
returns the current pointer's slot with no counter change. -/
theorem C2_increment_unless_saturated (s : APIKeyManager) (now : Nat)
    (hne : s.keys ≠ []) (hidx : s.current_index < s.keys.length) :
    (∃ i, i < s.keys.length ∧ (get_key_pick s now).1 = some i ∧
        (apply_window_reset s now).request_counts i
          < s.requests_per_minute_limit ∧
        (get_key_pick s now).2.request_counts i
          = (apply_window_reset s now).request_counts i + 1 ∧
        ∀ j, j ≠ i → (get_key_pick s now).2.request_counts j
          = (apply_window_reset s now).request_counts j)
    ∨ ((∀ j, j < s.keys.length → s.requests_per_minute_limit
          ≤ (apply_window_reset s now).request_counts j) ∧
        (get_key_pick s now).2.request_counts
          = (apply_window_reset s now).request_counts ∧
        (get_key_pick s now).1 = some s.current_index) := by
  have hkeys := apply_window_reset_keys s now
  have hidx' := apply_window_reset_index s now
  have hlim := apply_window_reset_limit s now
  have hempty := isEmpty_false_of_ne_nil hne
  have hidx1 : (apply_window_reset s now).current_index
      < (apply_window_reset s now).keys.length := by
    rw [hkeys, hidx']; exact hidx
  unfold get_key_pick
  simp only [hempty, Bool.false_eq_true, if_false]
  rcases hloop : get_key_loop (apply_window_reset s now).keys.length
      (apply_window_reset s now).requests_per_minute_limit
      (apply_window_reset s now).keys.length
      (apply_window_reset s now).current_index
      (apply_window_reset s now).request_counts with ⟨cs, ix, oi⟩
  cases oi with
  | some i =>
      obtain ⟨hlt, hixi, hin, hcs⟩ :=
        get_key_loop_some_spec _ _ _ _ _ _ _ _ hidx1 hloop
      refine Or.inl ⟨i, ?_, rfl, ?_, ?_, ?_⟩
      · rw [← hkeys]; exact hin
      · rw [← hlim]; exact hlt
      · simp [hcs]
      · intro j hj; simp [hcs, hj]
  | none =>
      obtain ⟨hcs, hix, hvis⟩ :=
        get_key_loop_none_spec _ _ _ _ _ _ _ hidx1 hloop
      refine Or.inr ⟨?_, hcs, ?_⟩
      · intro j hj
        obtain ⟨k, hk, hkj⟩ := visits_all (apply_window_reset s now).keys.length
          (apply_window_reset s now).current_index j hidx1 (by rw [hkeys]; exact hj)
        have := hvis k hk
        rw [hkj] at this
        rw [← hlim]; exact this
      · have : ix = s.current_index := by
          rw [hix, Nat.add_mod_right, Nat.mod_eq_of_lt hidx1, hidx']
        rw [this]

/-- C7: with 2 credentials at budget 2 per window, five consecutive
`get_key()` calls in one window hand out `k0, k0, k1, k1, k1`: the pool
rotates through both slots, the 5th call still returns a pool
credential with no exception, and both counters have reached the
budget. -/
theorem C7_saturated_rotation :
    (get_key c7_state0 0).1 = some "k0" ∧
    (get_key c7_s1 0).1 = some "k0" ∧
    (get_key c7_s2 0).1 = some "k1" ∧
    (get_key c7_s3 0).1 = some "k1" ∧
    (get_key c7_s4 0).1 = some "k1" ∧
    c7_state0.requests_per_minute_limit = 2 ∧
    2 ≤ (get_key c7_s4 0).2.request_counts 0 ∧
    2 ≤ (get_key c7_s4 0).2.request_counts 1 :=
  ⟨rfl, rfl, rfl, rfl, rfl, rfl, by decide, by decide⟩

/-- C2 (counterexample): a saturated single-credential pool (reached by
one `mark_rate_limited()` after `__init__`).  `get_key()` returns the
pool's credential, yet its request counter stays at 55 — the call did
not increment the counter of the credential it returned. -/
theorem C2_counterexample :
    c2_sat_state.requests_per_minute_limit = 55 ∧
    c2_sat_state.request_counts 0 = 55 ∧
    (get_key c2_sat_state 0).1 = some "k0" ∧
    (get_key c2_sat_state 0).2.request_counts 0 = 55 :=
  ⟨rfl, rfl, rfl, rfl⟩

theorem C2_increment_unless_saturated_witness :
    (APIKeyManager.init ["a", "b"] 0).keys ≠ [] ∧
    (APIKeyManager.init ["a", "b"] 0).current_index
      < (APIKeyManager.init ["a", "b"] 0).keys.length ∧
    ((∃ i, i < (APIKeyManager.init ["a", "b"] 0).keys.length ∧
        (get_key_pick (APIKeyManager.init ["a", "b"] 0) 0).1 = some i ∧
        (apply_window_reset (APIKeyManager.init ["a", "b"] 0) 0).request_counts i
          < (APIKeyManager.init ["a", "b"] 0).requests_per_minute_limit ∧
        (get_key_pick (APIKeyManager.init ["a", "b"] 0) 0).2.request_counts i
          = (apply_window_reset (APIKeyManager.init ["a", "b"] 0) 0).request_counts i + 1 ∧
        ∀ j, j ≠ i →
          (get_key_pick (APIKeyManager.init ["a", "b"] 0) 0).2.request_counts j
            = (apply_window_reset (APIKeyManager.init ["a", "b"] 0) 0).request_counts j)
    ∨ ((∀ j, j < (APIKeyManager.init ["a", "b"] 0).keys.length →
          (APIKeyManager.init ["a", "b"] 0).requests_per_minute_limit
            ≤ (apply_window_reset (APIKeyManager.init ["a", "b"] 0) 0).request_counts j) ∧
        (get_key_pick (APIKeyManager.init ["a", "b"] 0) 0).2.request_counts
          = (apply_window_reset (APIKeyManager.init ["a", "b"] 0) 0).request_counts ∧
        (get_key_pick (APIKeyManager.init ["a", "b"] 0) 0).1
          = some (APIKeyManager.init ["a", "b"] 0).current_index)) :=
  ⟨by decide, by decide,
    C2_increment_unless_saturated (APIKeyManager.init ["a", "b"] 0) 0
      (by decide) (by decide)⟩

theorem mark_rate_limited_counts_none (s : APIKeyManager) :
    (mark_rate_limited s none).1.request_counts
      = fun j => if j = s.current_index then s.requests_per_minute_limit
                 else s.request_counts j := by
  unfold mark_rate_limited
  by_cases h : s.keys.length = 0 <;> simp [h]

/-- C8: right after `mark_rate_limited(0)` on a pool of at least two
credentials, the next `get_key()` within the same window can pick slot 0
only if every other slot's counter had already reached the budget. -/
theorem C8_skips_marked_credential (s : APIKeyManager) (now : Nat)
    (h2 : 2 ≤ s.keys.length) (hfresh : now - s.last_reset < 60) :
    (get_key_pick (mark_rate_limited s (some 0)).1 now).1 = some 0 →
    ∀ j, j < s.keys.length → j ≠ 0 →
      s.requests_per_minute_limit ≤ s.request_counts j := by
  intro hpick j hj hj0
  have hlen0 : s.keys.length ≠ 0 := by omega
  have hne : s.keys ≠ [] := by
    intro hnil
    rw [hnil] at h2
    simp only [List.length_nil] at h2
    omega
  have htk := mark_rate_limited_keys s (some 0)
  have htl := mark_rate_limited_limit s (some 0)
  have htr := mark_rate_limited_last_reset s (some 0)
  have htc := mark_rate_limited_counts s 0
  have hti := mark_rate_limited_index s (some 0) hlen0
  have hreset : apply_window_reset (mark_rate_limited s (some 0)).1 now
      = (mark_rate_limited s (some 0)).1 :=
    apply_window_reset_of_fresh _ now (by rw [htr]; exact hfresh)
  have htne : (mark_rate_limited s (some 0)).1.keys.isEmpty = false := by
    rw [htk]; exact isEmpty_false_of_ne_nil hne
  have hidx1 : (mark_rate_limited s (some 0)).1.current_index
      < (mark_rate_limited s (some 0)).1.keys.length := by
    rw [hti, htk]; exact Nat.mod_lt _ (by omega)
  unfold get_key_pick at hpick
  simp only [htne, Bool.false_eq_true, if_false] at hpick
  rw [hreset] at hpick
  rcases hloop : get_key_loop (mark_rate_limited s (some 0)).1.keys.length
      (mark_rate_limited s (some 0)).1.requests_per_minute_limit
      (mark_rate_limited s (some 0)).1.keys.length
      (mark_rate_limited s (some 0)).1.current_index
      (mark_rate_limited s (some 0)).1.request_counts with ⟨cs, ix, oi⟩
  rw [hloop] at hpick
  cases oi with
  | some i =>
      obtain ⟨hlt, -, -, -⟩ := get_key_loop_some_spec _ _ _ _ _ _ _ _ hidx1 hloop
      have hi0 : i = 0 := by
        simpa using hpick
      subst hi0
      rw [htc, htl] at hlt
      simp at hlt
  | none =>
      obtain ⟨-, -, hvis⟩ := get_key_loop_none_spec _ _ _ _ _ _ _ hidx1 hloop
      obtain ⟨k, hk, hkj⟩ := visits_all (mark_rate_limited s (some 0)).1.keys.length
        (mark_rate_limited s (some 0)).1.current_index j hidx1
        (by rw [htk]; exact hj)
      have hsat := hvis k hk
      rw [hkj] at hsat
      simp only [htc, htl] at hsat
      rw [if_neg hj0] at hsat
      exact hsat

theorem C8_skips_marked_credential_witness :
    2 ≤ (APIKeyManager.init ["a", "b"] 7).keys.length ∧
    7 - (APIKeyManager.init ["a", "b"] 7).last_reset < 60 ∧
    ((get_key_pick (mark_rate_limited (APIKeyManager.init ["a", "b"] 7) (some 0)).1 7).1
        = some 0 →
      ∀ j, j < (APIKeyManager.init ["a", "b"] 7).keys.length → j ≠ 0 →
        (APIKeyManager.init ["a", "b"] 7).requests_per_minute_limit
          ≤ (APIKeyManager.init ["a", "b"] 7).request_counts j) :=
  ⟨by decide, by decide,
    C8_skips_marked_credential (APIKeyManager.init ["a", "b"] 7) 7
      (by decide) (by decide)⟩

/-- C9: `mark_rate_limited()` on an empty key pool raises
`ZeroDivisionError` from `(self.current_index + 1) % len(self.keys)`
instead of failing fast or being a no-op. -/
theorem C9_empty_pool_raises (s : APIKeyManager) (ki : Option Nat)
    (h : s.keys = []) :
    (mark_rate_limited s ki).2 = some "ZeroDivisionError" := by
  unfold mark_rate_limited
  simp [h]

theorem C9_empty_pool_raises_witness :
    (APIKeyManager.init [] 0).keys = [] ∧
    (mark_rate_limited (APIKeyManager.init [] 0) none).2
      = some "ZeroDivisionError" :=
  ⟨rfl, C9_empty_pool_raises (APIKeyManager.init [] 0) none rfl⟩

/-- The window reset keeps every counter at or below the budget. -/
theorem apply_window_reset_bounded (s : APIKeyManager) (now : Nat)
    (h : counters_bounded s) : counters_bounded (apply_window_reset s now) := by
  intro i
  unfold apply_window_reset
  split
  · exact Nat.zero_le _
  · exact h i

/-- One credential-manager call keeps every counter at or below the
budget: the scan increments only counters strictly below it,
`mark_rate_limited` writes exactly the budget, resets write zero. -/
theorem counters_bounded_applyOp (s : APIKeyManager) (op : MgrOp)
    (h : counters_bounded s) : counters_bounded (applyOp s op) := by
  cases op with
  | markRateLimited ki =>
      intro i
      show (mark_rate_limited s ki).1.request_counts i
        ≤ (mark_rate_limited s ki).1.requests_per_minute_limit
      rw [mark_rate_limited_limit]
      cases ki with
      | some k =>
          rw [mark_rate_limited_counts]
          dsimp only
          split
          · exact Nat.le_refl _
          · exact h i
      | none =>
          rw [mark_rate_limited_counts_none]
          dsimp only
          split
          · exact Nat.le_refl _
          · exact h i
  | getKey now =>
      intro i
      have hb := apply_window_reset_bounded s now h
      rcases hloop : get_key_loop (apply_window_reset s now).keys.length
          (apply_window_reset s now).requests_per_minute_limit
          (apply_window_reset s now).keys.length
          (apply_window_reset s now).current_index
          (apply_window_reset s now).request_counts with ⟨cs, ix, oi⟩
      have hcj := get_key_loop_counts (apply_window_reset s now).keys.length
          (apply_window_reset s now).requests_per_minute_limit
          (apply_window_reset s now).keys.length
          (apply_window_reset s now).current_index
          (apply_window_reset s now).request_counts i
      rw [hloop] at hcj
      dsimp only at hcj
      show (get_key s now).2.request_counts i
        ≤ (get_key s now).2.requests_per_minute_limit
      unfold get_key get_key_pick
      dsimp only
      split
      · exact h i
      · rw [hloop]
        cases oi with
        | some k =>
            dsimp only
            rcases hcj with hcj | ⟨hcj, hlt⟩
            · rw [hcj]; exact hb i
            · rw [hcj]; exact Nat.succ_le_of_lt hlt
        | none =>
            dsimp only
            rcases hcj with hcj | ⟨hcj, hlt⟩
            · rw [hcj]; exact hb i
            · rw [hcj]; exact Nat.succ_le_of_lt hlt

/-- Any finite call sequence keeps every counter at or below the budget. -/
theorem counters_bounded_runOps (s : APIKeyManager) (ops : List MgrOp)
    (h : counters_bounded s) : counters_bounded (runOps s ops) := by
  induction ops generalizing s with
  | nil => exact h
  | cons op rest ih => exact ih (applyOp s op) (counters_bounded_applyOp s op h)

/-- C10: starting from a freshly constructed manager, after every finite
sequence of `get_key()` / `mark_rate_limited()` calls each per-credential
request counter is at most the per-credential budget
`requests_per_minute_limit`. -/
theorem C10_counters_never_exceed_budget (keys : List String) (t0 : Nat)
    (ops : List MgrOp) (i : Nat) :
    (runOps (APIKeyManager.init keys t0) ops).request_counts i
      ≤ (runOps (APIKeyManager.init keys t0) ops).requests_per_minute_limit :=
  counters_bounded_runOps (APIKeyManager.init keys t0) ops
    (fun _ => Nat.zero_le _) i

/-- C1 (counterexample): with `city="Mumbai"` in step memory, the param
value `"Weather in $city today"` resolves to itself — not to
`"Weather in Mumbai today"` as interpolation would give. -/
theorem C1_counterexample :
    resolve_params [("query", Value.str "Weather in $city today")]
        [("city", Value.str "Mumbai")]
      = [("query", Value.str "Weather in $city today")] ∧
    Value.str "Weather in $city today" ≠ Value.str "Weather in Mumbai today" :=
  ⟨rfl, by
    intro h
    injection h with h'
    exact absurd h' (by decide)⟩

/-- C1 (amended): `_resolve_params` performs no interpolation.  A string
value is substituted only when it starts with `$` and its entire
remainder is a step-memory key; any other string value — in particular
one containing `$NAME` alongside surrounding text — passes through
verbatim. -/
theorem C1_no_interpolation (mem : List (String × Value)) (k s : String)
    (h : strStartsWith s "$" = false ∨ dictGet mem (s.drop 1) = none) :
    resolve_params [(k, Value.str s)] mem = [(k, Value.str s)] := by
  rcases h with h | h
  · simp [resolve_params, resolve_value, h]
  · unfold resolve_params resolve_value
    rcases hsw : strStartsWith s "$" <;> simp [hsw, h]

theorem C1_no_interpolation_witness :
    (strStartsWith "Weather in $city today" "$" = false ∨
      dictGet [("city", Value.str "Mumbai")]
        ("Weather in $city today".drop 1) = none) ∧
    resolve_params [("query", Value.str "Weather in $city today")]
        [("city", Value.str "Mumbai")]
      = [("query", Value.str "Weather in $city today")] :=
  ⟨Or.inl rfl,
    C1_no_interpolation [("city", Value.str "Mumbai")] "query"
      "Weather in $city today" (Or.inl rfl)⟩

/-- C5: a param value that starts with `$` whose remainder is bound in
step memory is replaced wholesale by the stored value itself — its type
(e.g. an integer) is preserved, with no stringification. -/
theorem C5_exact_reference_preserves_type (mem : List (String × Value))
    (k s : String) (v : Value)
    (h1 : strStartsWith s "$" = true)
    (h2 : dictGet mem (s.drop 1) = some v) :
    resolve_params [(k, Value.str s)] mem = [(k, v)] := by
  simp [resolve_params, resolve_value, h1, h2]

theorem C5_exact_reference_preserves_type_witness :
    strStartsWith "$X" "$" = true ∧
    dictGet [("X", Value.int 42)] ("$X".drop 1) = some (Value.int 42) ∧
    resolve_params [("p", Value.str "$X")] [("X", Value.int 42)]
      = [("p", Value.int 42)] ∧
    Value.int 42 ≠ Value.str "42" :=
  ⟨rfl, rfl,
    C5_exact_reference_preserves_type [("X", Value.int 42)] "p" "$X"
      (Value.int 42) rfl rfl,
    fun h => Value.noConfusion h⟩

/-- C4: in a two-step plan whose first step names a tool absent from
the registry and whose second step names a registered tool, both steps
are attempted: the log holds exactly two entries (an error entry for
step 1 and an entry for step 2 naming its tool), and the overall
success flag is false. -/
theorem C4_unknown_tool_continues (r : Registry) (c1 c2 : ToolCall)
    (thinking resp inp : String) (na : Bool) (f : ToolFn)
    (h1 : lookupTool r c1.tool = none)
    (h2 : lookupTool r c2.tool = some f) :
    (execute_plan r ⟨thinking, [c1, c2], resp, na⟩ inp).execution_log.length = 2 ∧
    ((execute_plan r ⟨thinking, [c1, c2], resp, na⟩ inp).execution_log.getD 0
        emptyLog).status = "error" ∧
    ((execute_plan r ⟨thinking, [c1, c2], resp, na⟩ inp).execution_log.getD 0
        emptyLog).step = 1 ∧
    ((execute_plan r ⟨thinking, [c1, c2], resp, na⟩ inp).execution_log.getD 0
        emptyLog).tool = c1.tool ∧
    ((execute_plan r ⟨thinking, [c1, c2], resp, na⟩ inp).execution_log.getD 1
        emptyLog).step = 2 ∧
    ((execute_plan r ⟨thinking, [c1, c2], resp, na⟩ inp).execution_log.getD 1
        emptyLog).tool = c2.tool ∧
    (execute_plan r ⟨thinking, [c1, c2], resp, na⟩ inp).success = false := by
  unfold execute_plan
  simp only [List.isEmpty_cons, if_false, Bool.false_eq_true]
  unfold exec_steps
  rw [h1]
  unfold exec_steps
  rw [h2]
  dsimp only
  rcases hf : f (resolve_params c2.params []) with e | v <;>
    simp [exec_steps, emptyLog]

theorem C4_unknown_tool_continues_witness :
    lookupTool demo_registry "unknown_tool" = none ∧
    lookupTool demo_registry "calculate" = some calc_tool ∧
    ((execute_plan demo_registry c4_plan "demo input").execution_log.length = 2 ∧
      ((execute_plan demo_registry c4_plan "demo input").execution_log.getD 0
          emptyLog).status = "error" ∧
      ((execute_plan demo_registry c4_plan "demo input").execution_log.getD 0
          emptyLog).step = 1 ∧
      ((execute_plan demo_registry c4_plan "demo input").execution_log.getD 0
          emptyLog).tool = c4_call1.tool ∧
      ((execute_plan demo_registry c4_plan "demo input").execution_log.getD 1
          emptyLog).step = 2 ∧
      ((execute_plan demo_registry c4_plan "demo input").execution_log.getD 1
          emptyLog).tool = c4_call2.tool ∧
      (execute_plan demo_registry c4_plan "demo input").success = false) :=
  ⟨rfl, rfl,
    C4_unknown_tool_continues demo_registry c4_call1 c4_call2
      "demo" "" "demo input" false calc_tool rfl rfl⟩

/-- C3 (counterexample): on input `"set volume to 42"` under a rate
limit, with a volume tool that raises `"boom"`, the dispatcher does not
catch the exception: `_handle_rate_limit` propagates it and the caller
of `orchestrate` receives the raised exception, not a structured
result dictionary. -/
theorem C3_counterexample :
    handle_rate_limit c3_fb c3_tail "set volume to 42"
      = Except.error "boom" ∧
    orchestrate true [] c6_bad_parse c6_automation c3_fb c3_tail
        (CompletionOutcome.exn "Error code: 429") "set volume to 42"
      = Except.error "boom" :=
  ⟨rfl, rfl⟩

/-- C3 (amended): whenever the volume matcher fires (input without
`"open"`, containing `"volume"` and a number) and the volume tool
raises, the exception escapes `_handle_rate_limit` uncaught, and a
rate-limited `orchestrate` invocation re-raises it to its caller
instead of returning a structured result. -/
theorem C3_exception_propagates (fb : FallbackEnv)
    (tail : String → Except String Value) (r : Registry)
    (parse : String → Except String Plan) (automation : String → Plan → Value)
    (inp msg e : String) (level : Nat)
    (hopen : strContains (lowerStr inp) "open" = false)
    (hvol : strContains (lowerStr inp) "volume" = true)
    (hnum : firstNumber inp = some level)
    (htool : fb.set_volume level = Except.error e)
    (hrl : (strContains msg "429" || strContains (lowerStr msg) "rate limit")
      = true) :
    handle_rate_limit fb tail inp = Except.error e ∧
    orchestrate true r parse automation fb tail (CompletionOutcome.exn msg) inp
      = Except.error e := by
  have hmain : handle_rate_limit fb tail inp = Except.error e := by
    unfold handle_rate_limit
    simp only [hopen, Bool.false_and, Bool.false_eq_true, if_false]
    unfold fallback_volume
    simp [hvol, hnum, htool]
  refine ⟨hmain, ?_⟩
  unfold orchestrate
  simp [hrl, hmain]

theorem C3_exception_propagates_witness :
    strContains (lowerStr "set volume to 42") "open" = false ∧
    strContains (lowerStr "set volume to 42") "volume" = true ∧
    firstNumber "set volume to 42" = some 42 ∧
    c3_fb.set_volume 42 = Except.error "boom" ∧
    (strContains "Error code: 429" "429" ||
      strContains (lowerStr "Error code: 429") "rate limit") = true ∧
    (handle_rate_limit c3_fb c3_tail "set volume to 42" = Except.error "boom" ∧
      orchestrate true demo_registry c6_bad_parse c6_automation c3_fb c3_tail
          (CompletionOutcome.exn "Error code: 429") "set volume to 42"
        = Except.error "boom") :=
  ⟨rfl, rfl, rfl, rfl, rfl,
    C3_exception_propagates c3_fb c3_tail demo_registry c6_bad_parse
      c6_automation "set volume to 42" "Error code: 429" "boom" 42
      rfl rfl rfl rfl rfl⟩

/-- C6: a planning response that fails to decode terminates the
invocation with the structured parse-failure result and never engages
the fallback dispatcher; an exception from the planning call engages
the dispatcher exactly when its message matches the rate-limit
condition (`"429"` or `"rate limit"`), any other exception yielding the
terminal structured error result. -/
theorem C6_fallback_only_on_rate_limit (r : Registry)
    (parse : String → Except String Plan) (automation : String → Plan → Value)
    (fb : FallbackEnv) (tail : String → Except String Value)
    (inp content e msg msg2 : String)
    (hdecode : parse content = Except.error e)
    (hrl_no : (strContains msg "429" || strContains (lowerStr msg) "rate limit")
      = false)
    (hrl_yes : (strContains msg2 "429" ||
      strContains (lowerStr msg2) "rate limit") = true) :
    orchestrate true r parse automation fb tail
        (CompletionOutcome.ok content) inp
      = Except.ok (OResult.parse_failure
          ("Failed to parse orchestrator response: " ++ e)) ∧
    orchestrate true r parse automation fb tail
        (CompletionOutcome.exn msg) inp
      = Except.ok (OResult.error_result ("Orchestrator error: " ++ msg)) ∧
    orchestrate true r parse automation fb tail
        (CompletionOutcome.exn msg2) inp
      = (match handle_rate_limit fb tail inp with
         | .ok v => Except.ok (OResult.fallback_result v)
         | .error e2 => Except.error e2) := by
  refine ⟨?_, ?_, ?_⟩
  · unfold orchestrate
    simp [hdecode]
  · unfold orchestrate
    simp [hrl_no]
  · unfold orchestrate
    simp [hrl_yes]

theorem C6_fallback_only_on_rate_limit_witness :
    c6_bad_parse "not json" = Except.error "Expecting value: line 1 column 1 (char 0)" ∧
    (strContains "AuthError: invalid api key" "429" ||
      strContains (lowerStr "AuthError: invalid api key") "rate limit") = false ∧
    (strContains "429 Too Many Requests" "429" ||
      strContains (lowerStr "429 Too Many Requests") "rate limit") = true ∧
    (orchestrate true demo_registry c6_bad_parse c6_automation c6_fb c3_tail
        (CompletionOutcome.ok "not json") "hello"
      = Except.ok (OResult.parse_failure
          ("Failed to parse orchestrator response: "
            ++ "Expecting value: line 1 column 1 (char 0)")) ∧
    orchestrate true demo_registry c6_bad_parse c6_automation c6_fb c3_tail
        (CompletionOutcome.exn "AuthError: invalid api key") "hello"
      = Except.ok (OResult.error_result
          ("Orchestrator error: " ++ "AuthError: invalid api key")) ∧
    orchestrate true demo_registry c6_bad_parse c6_automation c6_fb c3_tail
        (CompletionOutcome.exn "429 Too Many Requests") "hello"
      = (match handle_rate_limit c6_fb c3_tail "hello" with
         | .ok v => Except.ok (OResult.fallback_result v)
         | .error e2 => Except.error e2)) :=
  ⟨rfl, rfl, rfl,
    C6_fallback_only_on_rate_limit demo_registry c6_bad_parse c6_automation
      c6_fb c3_tail "hello" "not json"
      "Expecting value: line 1 column 1 (char 0)"
      "AuthError: invalid api key" "429 Too Many Requests"
      rfl rfl rfl⟩
